import Mathlib

/-
Verification of the Logger subsystem of the obsidian-plugin-template
repository (src/src/utils/Logger.ts).

The development shallowly embeds the Logger class: its filter engine
(shouldLog), its configuration mutators (setEnabled, setComponentLevel,
getTagFilters), its buffered file sink (writeToFile, flushBuffer, flush),
its build-gated debug method, and the component-logger factory wrapper
(createComponentLogger). TypeScript Promises are modelled by an explicit
storage collaborator whose per-operation outcomes (resolve or reject) are
part of the model state; the asynchronous flush is modelled as the
complete sequence of adapter callbacks it runs, executed atomically
(single-threaded event loop, one in-flight flush). Totality of every
modelled operation reflects that no exception escapes to the caller: the
method bodies catch every rejection in a .catch handler or try/catch.
-/

namespace ObsidianLogger

/-- Log levels of the Logger, in the order of the levels array in
shouldLog: debug < info < warn < error. The spec calls debug "trace". -/
inductive LogLevel where
  | debug
  | info
  | warn
  | error
deriving DecidableEq

/-- The closed enumeration of component names (type ComponentName). -/
inductive ComponentName where
  | main
  | modal
  | api
  | settings
  | ui
  | events
  | general
deriving DecidableEq

/-- Rank of a level in the levels array of shouldLog:
levels.indexOf for the array [debug, info, warn, error]. -/
def levelIndex : LogLevel → Nat
  | .debug => 0
  | .info  => 1
  | .warn  => 2
  | .error => 3

/-- Mutable state of the Logger singleton. The LoggerConfig record (one
level per component) is a total function from the closed enumeration; the
tagFilters Map of Sets is a partial function to the list of tags that was
installed (membership in the list coincides with membership in the
TypeScript Set built from it). The app field only matters through its
presence (null check), so it is a Bool. -/
structure LoggerState where
  config : ComponentName → LogLevel
  enabled : Bool
  fileLoggingEnabled : Bool
  logFilePath : String
  logBuffer : List String
  maxBufferSize : Nat
  appPresent : Bool
  tagFilters : ComponentName → Option (List String)

/-- DEFAULT_CONFIG: every component at warn. -/
def defaultConfig : ComponentName → LogLevel := fun _ => .warn

/-- State produced by the Logger constructor: default config, enabled,
file logging off, empty buffer, maxBufferSize 10, no app, no filters. -/
def initialLogger : LoggerState where
  config := defaultConfig
  enabled := true
  fileLoggingEnabled := false
  logFilePath := ""
  logBuffer := []
  maxBufferSize := 10
  appPresent := false
  tagFilters := fun _ => none

/-- Logger.shouldLog: global enable gate, then the level-rank comparison
against the configured component level, then - only for debug level and
only when a tag filter is installed for the component - the tag check:
a record with no tags (undefined or empty) is rejected, otherwise it is
accepted iff some record tag is in the filter set (tags.some). -/
def shouldLog (st : LoggerState) (component : ComponentName)
    (level : LogLevel) (tags : Option (List String)) : Bool :=
  if !st.enabled then false
  else
    let componentLevelIndex := levelIndex (st.config component)
    let requestedLevelIndex := levelIndex level
    if requestedLevelIndex < componentLevelIndex then false
    else
      match level, st.tagFilters component with
      | .debug, some allowedTags =>
        match tags with
        | none => false
        | some ts => if ts.isEmpty then false else ts.any fun t => allowedTags.contains t
      | _, _ => true

/-- Logger.setEnabled. -/
def setEnabled (st : LoggerState) (b : Bool) : LoggerState :=
  { st with enabled := b }

/-- Logger.setComponentLevel: set the component level; install the tag
filter when tags is supplied and non-empty, otherwise delete any filter. -/
def setComponentLevel (st : LoggerState) (component : ComponentName)
    (level : LogLevel) (tags : Option (List String)) : LoggerState :=
  { st with
    config := fun c => if c = component then level else st.config c
    tagFilters := fun c =>
      if c = component then
        match tags with
        | some ts => if 0 < ts.length then some ts else none
        | none => none
      else st.tagFilters c }

/-- First-occurrence deduplication with an accumulator of already seen
elements: the iteration order of a TypeScript Set built by insertion. -/
def dedupAux : List String → List String → List String
  | _, [] => []
  | seen, t :: ts =>
    if seen.contains t then dedupAux seen ts
    else t :: dedupAux (t :: seen) ts

/-- Array.from of the Set built from a list: duplicates removed, first
occurrences kept in order. -/
def dedupFirst (l : List String) : List String := dedupAux [] l

/-- Logger.getTagFilters: Array.from of the stored Set, or undefined. -/
def getTagFilters (st : LoggerState) (component : ComponentName) :
    Option (List String) :=
  (st.tagFilters component).map dedupFirst

/-- Outcome of the adapter.stat call: the Promise rejects, resolves with
null, or resolves with a stat object carrying a size. -/
inductive StatOutcome where
  | fail
  | nullStat
  | ok (size : Nat)
deriving DecidableEq

/-- The storage collaborator (app.vault.adapter) for one flush: the
current content of the destination file (none when it does not exist,
also what read resolves with), what stat resolves with, and whether each
of the exists / read / write Promises rejects. -/
structure StorageModel where
  fileContent : Option String
  statOutcome : StatOutcome
  existsFails : Bool
  readFails : Bool
  writeFails : Bool

/-- One adapter operation performed during a flush, with whether its
Promise resolved (true) or rejected (false). -/
inductive StorageOp where
  | opExists (ok : Bool)
  | opStat (ok : Bool)
  | opRead (ok : Bool)
  | opWrite (ok : Bool)
deriving DecidableEq

/-- Whether the operation resolved. -/
def opOk : StorageOp → Bool
  | .opExists ok => ok
  | .opStat ok => ok
  | .opRead ok => ok
  | .opWrite ok => ok

/-- One console record: which console method was called and its primary
formatted string (extra arguments passed to the console are opaque to the
Logger and are not part of the entry). -/
inductive ConsoleEntry where
  | cdebug (s : String)
  | cinfo (s : String)
  | cwarn (s : String)
  | cerror (s : String)
deriving DecidableEq

/-- Result of running a Logger operation that may touch the sinks: the
new logger state, the resulting destination-file content, the console
records emitted, and the adapter operations performed. -/
structure SinkOutcome where
  state : LoggerState
  file : Option String
  console : List ConsoleEntry
  ops : List StorageOp

/-- maxFileSize constant of flushBuffer: 1024 * 1024 bytes. -/
def maxFileSize : Nat := 1024 * 1024

/-- Rotation banner written when the file size exceeded maxFileSize
(clearHeader in flushBuffer), stamped with the current time. -/
def clearHeader (now : String) : String :=
  "[" ++ now ++ "] === Log file cleared (size exceeded 1MB) ===\n"

/-- Logger.flushBuffer. Guard: no-op when file logging is off, the app is
absent, or the buffer is empty. Otherwise join the buffer and walk the
adapter Promise chain: exists, then (for an existing file) stat and
either the rotation overwrite (size > maxFileSize) or read-append-write,
or (for a missing file) a plain create write. Every rejection is caught
and logged via console.error with the buffer left untouched; only a
resolved write clears the buffer. The stat-resolves-null guard returns
silently. The time now stamps the rotation banner. The surrounding
try/catch and the .catch handlers make the method total: no exception
reaches the caller. -/
def flushBuffer (now : String) (sm : StorageModel) (st : LoggerState) :
    SinkOutcome :=
  if !st.fileLoggingEnabled || !st.appPresent || st.logBuffer.isEmpty then
    ⟨st, sm.fileContent, [], []⟩
  else
    let content := String.join st.logBuffer
    if sm.existsFails then
      ⟨st, sm.fileContent,
        [.cerror "[Logger] Failed to check if log file exists:"],
        [.opExists false]⟩
    else
      match sm.fileContent with
      | some existingContent =>
        match sm.statOutcome with
        | .fail =>
          ⟨st, sm.fileContent,
            [.cerror "[Logger] Failed to get log file stats:"],
            [.opExists true, .opStat false]⟩
        | .nullStat =>
          ⟨st, sm.fileContent, [], [.opExists true, .opStat true]⟩
        | .ok size =>
          if maxFileSize < size then
            if sm.writeFails then
              ⟨st, sm.fileContent,
                [.cerror "[Logger] Failed to clear and write log file:"],
                [.opExists true, .opStat true, .opWrite false]⟩
            else
              ⟨{ st with logBuffer := [] },
                some (clearHeader now ++ content), [],
                [.opExists true, .opStat true, .opWrite true]⟩
          else
            if sm.readFails then
              ⟨st, sm.fileContent,
                [.cerror "[Logger] Failed to read existing log file:"],
                [.opExists true, .opStat true, .opRead false]⟩
            else if sm.writeFails then
              ⟨st, sm.fileContent,
                [.cerror "[Logger] Failed to write to log file (append):"],
                [.opExists true, .opStat true, .opRead true, .opWrite false]⟩
            else
              ⟨{ st with logBuffer := [] },
                some (existingContent ++ content), [],
                [.opExists true, .opStat true, .opRead true, .opWrite true]⟩
      | none =>
        if sm.writeFails then
          ⟨st, sm.fileContent,
            [.cerror "[Logger] Failed to create log file:"],
            [.opExists true, .opWrite false]⟩
        else
          ⟨{ st with logBuffer := [] }, some content, [],
            [.opExists true, .opWrite true]⟩

/-- Logger.flush: delegates to flushBuffer. -/
def flush (now : String) (sm : StorageModel) (st : LoggerState) :
    SinkOutcome :=
  flushBuffer now sm st

/-- Logger.writeToFile: drop the message when file logging is off or the
app is absent; otherwise push it onto the buffer and flush once the
buffer has reached maxBufferSize. -/
def writeToFile (now : String) (sm : StorageModel) (st : LoggerState)
    (message : String) : SinkOutcome :=
  if !st.fileLoggingEnabled || !st.appPresent then
    ⟨st, sm.fileContent, [], []⟩
  else
    let st2 := { st with logBuffer := st.logBuffer ++ [message] }
    if st.maxBufferSize ≤ st2.logBuffer.length then flushBuffer now sm st2
    else ⟨st2, sm.fileContent, [], []⟩

/-- Upper-cased level name used in the file format. -/
def levelUpper : LogLevel → String
  | .debug => "DEBUG"
  | .info  => "INFO"
  | .warn  => "WARN"
  | .error => "ERROR"

/-- Upper-cased component name used by formatMessage. -/
def componentUpper : ComponentName → String
  | .main => "MAIN"
  | .modal => "MODAL"
  | .api => "API"
  | .settings => "SETTINGS"
  | .ui => "UI"
  | .events => "EVENTS"
  | .general => "GENERAL"

/-- Logger.formatMessage: component in brackets, the bracketed
comma-joined tag segment when tags is supplied and non-empty, a space,
then the message. -/
def formatMessage (component : ComponentName) (message : String)
    (tags : Option (List String)) : String :=
  let tagStr :=
    match tags with
    | some ts =>
      if 0 < ts.length then "[" ++ String.intercalate "," ts ++ "]" else ""
    | none => ""
  "[" ++ componentUpper component ++ "]" ++ tagStr ++ " " ++ message

/-- A JavaScript runtime value as far as the Logger inspects one: strings
are distinguished (typeof check), arrays are traversed (Array.isArray and
JSON serialization); every other shape is opaque. -/
inductive JsValue where
  | str (s : String)
  | num (n : Int)
  | bool (b : Bool)
  | arr (elems : List JsValue)
  | other

mutual

/-- JSON serialization of one value (JSON.stringify; the pretty-printing
whitespace of the indent argument is abstracted away, and a circular
structure - the only way JSON.stringify throws here - is not
representable, so the catch branch of formatForFile is unreachable). -/
def jsValueToJson : JsValue → String
  | .str s => "\"" ++ s ++ "\""
  | .num n => toString n
  | .bool b => if b then "true" else "false"
  | .arr elems => "[" ++ jsArrayToJson elems ++ "]"
  | .other => "null"

/-- Comma-joined serialization of a list of values. -/
def jsArrayToJson : List JsValue → String
  | [] => ""
  | v :: rest =>
    match rest with
    | [] => jsValueToJson v
    | _ => jsValueToJson v ++ "," ++ jsArrayToJson rest

end

/-- Logger.formatForFile: timestamp, level, formatted message, and an
Arguments continuation with the JSON-serialized extra arguments when
there are any, terminated by a newline. -/
def formatForFile (now : String) (component : ComponentName)
    (level : LogLevel) (message : String) (tags : Option (List String))
    (args : List JsValue) : String :=
  let formattedMessage := formatMessage component message tags
  let base := "[" ++ now ++ "] [" ++ levelUpper level ++ "] " ++ formattedMessage
  let withArgs :=
    if 0 < args.length then
      base ++ "\n  Arguments: " ++ "[" ++ jsArrayToJson args ++ "]"
    else base
  withArgs ++ "\n"

/-- isDevelopment: BUILD_ENV is defined and equals development. The
build-time constant is modelled as the optional string the bundler
substitutes (none when BUILD_ENV is undefined, which the catch fallback
maps to false). -/
def isDevelopment (buildEnv : Option String) : Bool :=
  match buildEnv with
  | some e => e == "development"
  | none => false

/-- Logger.debug: returns at once unless the build is development;
otherwise consults shouldLog for debug level with the given tags, emits
the formatted message on console.debug, and - when file logging is
enabled - hands the file-formatted record to writeToFile (which may
trigger a capacity flush). -/
def debug (buildEnv : Option String) (now : String) (sm : StorageModel)
    (st : LoggerState) (component : ComponentName) (message : String)
    (tags : Option (List String)) (args : List JsValue) : SinkOutcome :=
  if !isDevelopment buildEnv then ⟨st, sm.fileContent, [], []⟩
  else if shouldLog st component .debug tags then
    let consoleOut := [ConsoleEntry.cdebug (formatMessage component message tags)]
    if st.fileLoggingEnabled then
      let o := writeToFile now sm st (formatForFile now component .debug message tags args)
      ⟨o.state, o.file, consoleOut ++ o.console, o.ops⟩
    else
      ⟨st, sm.fileContent, consoleOut, []⟩
  else ⟨st, sm.fileContent, [], []⟩

/-- Whether every element of the list is a string: the
lastArg.every(item => typeof item === 'string') check of the
component-logger debug wrapper. Note that it is vacuously true of an
empty array. -/
def isAllStrings (xs : List JsValue) : Bool :=
  xs.all fun v =>
    match v with
    | .str _ => true
    | _ => false

/-- The strings contained in a list of values; on a list that passed
isAllStrings this is exactly the array cast to a string array. -/
def asStrings (xs : List JsValue) : List String :=
  xs.filterMap fun v =>
    match v with
    | .str s => some s
    | _ => none

/-- The debug closure of Logger.createComponentLogger: inspect the last
extra argument; when it is an array whose elements are all strings, pop
it and pass it as the tags of the record, otherwise pass all arguments
through with undefined tags. An absent last argument (no arguments at
all) fails the Array.isArray check. -/
def componentLoggerDebug (buildEnv : Option String) (now : String)
    (sm : StorageModel) (st : LoggerState) (component : ComponentName)
    (message : String) (args : List JsValue) : SinkOutcome :=
  match args.getLast? with
  | some (.arr xs) =>
    if isAllStrings xs then
      debug buildEnv now sm st component message (some (asStrings xs)) args.dropLast
    else
      debug buildEnv now sm st component message none args
  | _ => debug buildEnv now sm st component message none args

/-- Number of resolved write operations among the adapter operations of
an outcome. -/
def writeOkCount (ops : List StorageOp) : Nat :=
  ops.countP fun op =>
    match op with
    | .opWrite true => true
    | _ => false

/-- Example state: the initial logger after
setComponentLevel(ui, debug, [a, b]). -/
def stTagged : LoggerState :=
  setComponentLevel initialLogger .ui .debug (some ["a", "b"])

/-- Example state: file logging initialized and one buffered line. -/
def stBuffered : LoggerState :=
  { initialLogger with
    fileLoggingEnabled := true
    appPresent := true
    logFilePath := "debug-log.txt"
    logBuffer := ["line1\n"] }

/-- Example storage: no destination file, all operations resolve. -/
def smNoFile : StorageModel :=
  { fileContent := none, statOutcome := .ok 0
    existsFails := false, readFails := false, writeFails := false }

/-- Example storage: existing small file, the write Promise rejects. -/
def smWriteFail : StorageModel :=
  { fileContent := some "old", statOutcome := .ok 10
    existsFails := false, readFails := false, writeFails := true }

/-- Example storage: existing file over the 1MB rotation threshold. -/
def smBigFile : StorageModel :=
  { fileContent := some "old", statOutcome := .ok 1048577
    existsFails := false, readFails := false, writeFails := false }

/-- Example storage: existing file under the rotation threshold. -/
def smSmallFile : StorageModel :=
  { fileContent := some "old", statOutcome := .ok 10
    existsFails := false, readFails := false, writeFails := false }

/-
Theorems. Helper lemmas come first; each claim is settled by one theorem,
with a closed witness instantiating it where it carries hypotheses.
-/

/-- Membership in dedupAux: an element survives iff it is in the input
and not among the already seen elements. -/
theorem mem_dedupAux (x : String) :
    ∀ (l seen : List String),
      x ∈ dedupAux seen l ↔ (x ∈ l ∧ x ∉ seen)
  | [], seen => by simp [dedupAux]
  | t :: ts, seen => by
    by_cases h : seen.contains t
    · have ht : t ∈ seen := by simpa using h
      rw [dedupAux, if_pos h, mem_dedupAux x ts seen]
      simp only [List.mem_cons]
      constructor
      · rintro ⟨hx, hns⟩
        exact ⟨Or.inr hx, hns⟩
      · rintro ⟨rfl | hx, hns⟩
        · exact absurd ht hns
        · exact ⟨hx, hns⟩
    · have ht : t ∉ seen := by simpa using h
      rw [dedupAux, if_neg h]
      simp only [List.mem_cons, mem_dedupAux x ts (t :: seen)]
      constructor
      · rintro (rfl | ⟨hx, hns⟩)
        · exact ⟨Or.inl rfl, ht⟩
        · exact ⟨Or.inr hx, fun hc => hns (Or.inr hc)⟩
      · rintro ⟨rfl | hx, hns⟩
        · exact Or.inl rfl
        · by_cases hxt : x = t
          · exact Or.inl hxt
          · exact Or.inr ⟨hx, fun hc => hc.elim hxt hns⟩

/-- Membership in dedupFirst coincides with membership in the input. -/
theorem mem_dedupFirst (x : String) (l : List String) :
    x ∈ dedupFirst l ↔ x ∈ l := by
  simp [dedupFirst, mem_dedupAux]

/-- Claim C1: for a component whose configured level admits debug and
which has a non-empty tag filter installed (and with the global flag on),
shouldLog at debug level accepts a record iff its tag list is non-empty
and shares at least one tag with the filter (OR semantics). -/
theorem shouldLog_tag_or_semantics
    (st : LoggerState) (c : ComponentName) (allowed : List String)
    (tags : Option (List String))
    (hEn : st.enabled = true)
    (hFil : st.tagFilters c = some allowed)
    (_hNe : allowed ≠ [])
    (hLvl : levelIndex (st.config c) ≤ levelIndex LogLevel.debug) :
    shouldLog st c LogLevel.debug tags = true ↔
      (tags.getD [] ≠ [] ∧ ∃ t ∈ tags.getD [], t ∈ allowed) := by
  have hci : levelIndex (st.config c) = 0 := Nat.le_zero.mp hLvl
  cases tags with
  | none =>
    simp [shouldLog, hEn, hFil, hci]
  | some ts =>
    by_cases hts : ts = []
    · subst hts
      simp [shouldLog, hEn, hFil, hci]
    · simp [shouldLog, hEn, hFil, hci, hts, List.isEmpty_iff, List.any_eq_true]

/-- Claim C2: after setEnabled false, shouldLog returns false for every
component, level and tag combination. -/
theorem shouldLog_global_disable
    (st : LoggerState) (c : ComponentName) (level : LogLevel)
    (tags : Option (List String)) :
    shouldLog (setEnabled st false) c level tags = false := by
  simp [shouldLog, setEnabled]

/-- Claim C6: shouldLog is monotone in the level rank. If a record at a
strictly lower-ranked level passes for a component, any record at a
higher-ranked level passes as well, with any tag lists on either side:
the higher level cannot be debug, so tag filtering never interferes. -/
theorem shouldLog_level_monotone
    (st : LoggerState) (c : ComponentName) (l1 l2 : LogLevel)
    (t1 t2 : Option (List String))
    (h12 : levelIndex l1 < levelIndex l2)
    (h1 : shouldLog st c l1 t1 = true) :
    shouldLog st c l2 t2 = true := by
  by_cases hE : st.enabled
  · by_cases hL1 : levelIndex l1 < levelIndex (st.config c)
    · simp [shouldLog, hE, hL1] at h1
    · have hL2 : ¬ levelIndex l2 < levelIndex (st.config c) := by omega
      have hdeb : l2 ≠ .debug := by
        intro h
        subst h
        simp only [levelIndex] at h12
        omega
      cases l2 with
      | debug => exact absurd rfl hdeb
      | info => simp [shouldLog, hE, hL2]
      | warn => simp [shouldLog, hE, hL2]
      | error => simp [shouldLog, hE, hL2]
  · simp [shouldLog, hE] at h1

/-- Claim C8: for the non-debug levels the verdict of shouldLog is
exactly the conjunction of the global enable flag and the level-rank
comparison; an installed tag filter and the tag argument never matter. -/
theorem shouldLog_nontrace_ignores_tags
    (st : LoggerState) (c : ComponentName) (level : LogLevel)
    (tags : Option (List String))
    (h : level = LogLevel.info ∨ level = LogLevel.warn ∨ level = LogLevel.error) :
    (shouldLog st c level tags = true ↔
      (st.enabled = true ∧ levelIndex (st.config c) ≤ levelIndex level)) := by
  have hmain : ∀ lv : LogLevel, lv ≠ .debug →
      (shouldLog st c lv tags = true ↔
        (st.enabled = true ∧ levelIndex (st.config c) ≤ levelIndex lv)) := by
    intro lv hlv
    by_cases hE : st.enabled
    · by_cases hL : levelIndex lv < levelIndex (st.config c)
      · have hnle := Nat.not_le.mpr hL
        cases lv with
        | debug => exact absurd rfl hlv
        | info => simp [shouldLog, hE, hL, hnle]
        | warn => simp [shouldLog, hE, hL, hnle]
        | error => simp [shouldLog, hE, hL, hnle]
      · have hle := Nat.not_lt.mp hL
        cases lv with
        | debug => exact absurd rfl hlv
        | info => simp [shouldLog, hE, hL, hle]
        | warn => simp [shouldLog, hE, hL, hle]
        | error => simp [shouldLog, hE, hL, hle]
    · simp [shouldLog, hE]
  rcases h with h | h | h <;> subst h <;> exact hmain _ (by intro hc; cases hc)

/-- Claim C9: setComponentLevel sets the component level; a supplied
non-empty tag list installs exactly that set of tags as the filter
(getTagFilters returns its first-occurrence deduplication, whose
membership is that of the supplied list); an omitted or empty tag list
removes any filter, making getTagFilters return none. -/
theorem setComponentLevel_spec
    (st : LoggerState) (c : ComponentName) (level : LogLevel)
    (tags : Option (List String)) :
    (setComponentLevel st c level tags).config c = level ∧
    (∀ ts, tags = some ts → ts ≠ [] →
      getTagFilters (setComponentLevel st c level tags) c = some (dedupFirst ts) ∧
      ∀ t, t ∈ dedupFirst ts ↔ t ∈ ts) ∧
    ((tags = none ∨ tags = some []) →
      getTagFilters (setComponentLevel st c level tags) c = none) := by
  refine ⟨by simp [setComponentLevel], ?_, ?_⟩
  · rintro ts rfl hne
    refine ⟨?_, fun t => mem_dedupFirst t ts⟩
    have hlen : 0 < ts.length := List.length_pos.mpr hne
    simp [getTagFilters, setComponentLevel, hlen]
  · rintro (rfl | rfl)
    · simp [getTagFilters, setComponentLevel]
    · simp [getTagFilters, setComponentLevel]

/-- A flush whose buffer is empty is a complete no-op: state, file and
console are untouched and no adapter operation runs. -/
theorem flushBuffer_empty (now : String) (sm : StorageModel)
    (st : LoggerState) (h : st.logBuffer = []) :
    flushBuffer now sm st = ⟨st, sm.fileContent, [], []⟩ := by
  simp [flushBuffer, h]

/-- Any single flush either performs no resolved write, or performs
exactly one and leaves the buffer empty. -/
theorem flush_writeOk_cases (now : String) (sm : StorageModel)
    (st : LoggerState) :
    writeOkCount (flushBuffer now sm st).ops = 0 ∨
      (writeOkCount (flushBuffer now sm st).ops = 1 ∧
        (flushBuffer now sm st).state.logBuffer = []) := by
  simp only [flushBuffer]
  repeat' split
  all_goals simp [writeOkCount]

/-- Claim C3: in a build whose BUILD_ENV is anything other than
development (a release artifact), every debug call is a no-op at its
first statement: no console record, no change to the pending buffer or
any other logger state, no adapter operation, for every component,
message, tag list and extra arguments. -/
theorem debug_release_noop (buildEnv : Option String) (now : String)
    (sm : StorageModel) (st : LoggerState) (c : ComponentName)
    (message : String) (tags : Option (List String)) (args : List JsValue)
    (h : buildEnv ≠ some "development") :
    debug buildEnv now sm st c message tags args =
      ⟨st, sm.fileContent, [], []⟩ := by
  have hdev : isDevelopment buildEnv = false := by
    cases buildEnv with
    | none => rfl
    | some e =>
      simp only [isDevelopment, beq_eq_false_iff_ne, ne_eq]
      intro he
      exact h (by rw [he])
  simp [debug, hdev]

/-- Claim C4: for a flush with file logging on, the app present and a
non-empty buffer (and the stat Promise not resolving null): when every
adapter operation resolves the pending buffer is cleared and nothing goes
to the console; when some adapter operation rejects, the buffer and the
destination file are left exactly as they were and the failure is
reported on the console. Totality of flushBuffer models that no error
reaches the caller. -/
theorem flushBuffer_error_handling (now : String) (sm : StorageModel)
    (st : LoggerState)
    (hfl : st.fileLoggingEnabled = true) (hap : st.appPresent = true)
    (hne : st.logBuffer ≠ [])
    (hstat : sm.statOutcome ≠ StatOutcome.nullStat) :
    ((∀ op ∈ (flushBuffer now sm st).ops, opOk op = true) →
      (flushBuffer now sm st).state.logBuffer = [] ∧
      (flushBuffer now sm st).console = []) ∧
    ((∃ op ∈ (flushBuffer now sm st).ops, opOk op = false) →
      (flushBuffer now sm st).state = st ∧
      (flushBuffer now sm st).file = sm.fileContent ∧
      (flushBuffer now sm st).console ≠ []) := by
  have hie : st.logBuffer.isEmpty = false := by
    cases hb : st.logBuffer.isEmpty
    · rfl
    · exact absurd (List.isEmpty_iff.mp hb) hne
  cases hEx : sm.existsFails with
  | true => simp [flushBuffer, hfl, hap, hie, hEx, opOk]
  | false =>
    cases hf : sm.fileContent with
    | none =>
      cases hw : sm.writeFails with
      | true => simp [flushBuffer, hfl, hap, hie, hEx, hf, hw, opOk]
      | false => simp [flushBuffer, hfl, hap, hie, hEx, hf, hw, opOk]
    | some existingContent =>
      cases hs : sm.statOutcome with
      | fail => simp [flushBuffer, hfl, hap, hie, hEx, hf, hs, opOk]
      | nullStat => exact absurd hs hstat
      | ok size =>
        by_cases hsz : maxFileSize < size
        · cases hw : sm.writeFails with
          | true => simp [flushBuffer, hfl, hap, hie, hEx, hf, hs, hsz, hw, opOk]
          | false => simp [flushBuffer, hfl, hap, hie, hEx, hf, hs, hsz, hw, opOk]
        · cases hr : sm.readFails with
          | true => simp [flushBuffer, hfl, hap, hie, hEx, hf, hs, hsz, hr, opOk]
          | false =>
            cases hw : sm.writeFails with
            | true => simp [flushBuffer, hfl, hap, hie, hEx, hf, hs, hsz, hr, hw, opOk]
            | false => simp [flushBuffer, hfl, hap, hie, hEx, hf, hs, hsz, hr, hw, opOk]

/-- Claim C5: for a flush with a non-empty buffer against an existing
destination file whose reported size is known and whose operations all
resolve: a size strictly over maxFileSize makes the flush overwrite the
file with the rotation banner followed by the joined pending content,
and a size at or under the threshold makes it write the existing content
with the pending content appended. -/
theorem flushBuffer_rotation_threshold (now : String) (sm : StorageModel)
    (st : LoggerState) (existingContent : String) (size : Nat)
    (hfl : st.fileLoggingEnabled = true) (hap : st.appPresent = true)
    (hne : st.logBuffer ≠ [])
    (hf : sm.fileContent = some existingContent)
    (hs : sm.statOutcome = StatOutcome.ok size)
    (hEx : sm.existsFails = false) (hr : sm.readFails = false)
    (hw : sm.writeFails = false) :
    (maxFileSize < size →
      (flushBuffer now sm st).file =
        some (clearHeader now ++ String.join st.logBuffer)) ∧
    (size ≤ maxFileSize →
      (flushBuffer now sm st).file =
        some (existingContent ++ String.join st.logBuffer)) := by
  have hie : st.logBuffer.isEmpty = false := by
    cases hb : st.logBuffer.isEmpty
    · rfl
    · exact absurd (List.isEmpty_iff.mp hb) hne
  constructor
  · intro hsz
    simp [flushBuffer, hfl, hap, hie, hEx, hf, hs, hsz, hw]
  · intro hsz
    have hnsz : ¬ maxFileSize < size := Nat.not_lt.mpr hsz
    simp [flushBuffer, hfl, hap, hie, hEx, hf, hs, hnsz, hr, hw]

/-- Claim C7: a flush invoked on an empty pending buffer performs no
adapter operation and changes nothing; and across any two consecutive
flushes with no log call in between, at most one write resolves (once
the first flush succeeds its buffer is empty, so the second is a
no-op). -/
theorem flush_empty_noop_idempotent :
    (∀ now sm st, (st : LoggerState).logBuffer = [] →
      flush now sm st = ⟨st, sm.fileContent, [], []⟩) ∧
    (∀ now1 sm1 now2 sm2 st,
      writeOkCount (flush now1 sm1 st).ops +
        writeOkCount (flush now2 sm2 (flush now1 sm1 st).state).ops ≤ 1) := by
  constructor
  · intro now sm st h
    exact flushBuffer_empty now sm st h
  · intro now1 sm1 now2 sm2 st
    rcases flush_writeOk_cases now1 sm1 st with h0 | ⟨h1, hcl⟩
    · rcases flush_writeOk_cases now2 sm2 (flushBuffer now1 sm1 st).state with
        h0b | ⟨h1b, _⟩
      · simp [flush, h0, h0b]
      · simp [flush, h0, h1b]
    · have h2 := flushBuffer_empty now2 sm2 (flushBuffer now1 sm1 st).state hcl
      have h0b : writeOkCount (flushBuffer now2 sm2 (flushBuffer now1 sm1 st).state).ops = 0 := by
        rw [h2]
        rfl
      simp only [flush]
      omega

/-- Claim C10: the debug closure returned by createComponentLogger pops
a final argument that is an array of strings and passes it as the tags
of the record with the remaining arguments as extras; in every other
case - no arguments, or a final argument that is not an array all of
whose elements are strings - it passes all arguments as extras with
undefined tags. -/
theorem componentLoggerDebug_tag_sniffing (buildEnv : Option String)
    (now : String) (sm : StorageModel) (st : LoggerState)
    (c : ComponentName) (message : String) (args : List JsValue) :
    (∀ xs, args.getLast? = some (JsValue.arr xs) →
      (∀ v ∈ xs, ∃ s, v = JsValue.str s) →
      componentLoggerDebug buildEnv now sm st c message args =
        debug buildEnv now sm st c message (some (asStrings xs)) args.dropLast) ∧
    ((∀ xs, args.getLast? = some (JsValue.arr xs) →
        ∃ v ∈ xs, ∀ s, v ≠ JsValue.str s) →
      componentLoggerDebug buildEnv now sm st c message args =
        debug buildEnv now sm st c message none args) := by
  constructor
  · intro xs hlast hall
    have hb : isAllStrings xs = true := by
      simp only [isAllStrings, List.all_eq_true]
      intro v hv
      rcases hall v hv with ⟨s, rfl⟩
      rfl
    simp [componentLoggerDebug, hlast, hb]
  · intro hnot
    unfold componentLoggerDebug
    cases hlast : args.getLast? with
    | none => rfl
    | some v =>
      cases v with
      | str s => rfl
      | num n => rfl
      | bool b => rfl
      | other => rfl
      | arr xs =>
        have hb : isAllStrings xs = false := by
          rcases hnot xs hlast with ⟨v, hv, hne⟩
          cases hAll : isAllStrings xs with
          | false => rfl
          | true =>
            exfalso
            have hvs := List.all_eq_true.mp
              (by simpa only [isAllStrings] using hAll) v hv
            cases v with
            | str s => exact hne s rfl
            | num n => simp at hvs
            | bool b => simp at hvs
            | arr ys => simp at hvs
            | other => simp at hvs
        simp [hb]

/-- Witness for claim C1: with tagFilter set to a and b on the ui
component, a debug record tagged b and c is accepted. -/
theorem shouldLog_tag_or_semantics_witness :
    shouldLog stTagged ComponentName.ui LogLevel.debug (some ["b", "c"]) = true := by
  have h := shouldLog_tag_or_semantics stTagged ComponentName.ui ["a", "b"]
    (some ["b", "c"]) (by decide) (by decide) (by decide) (by decide)
  exact h.mpr (by decide)

/-- Witness for claim C3: with BUILD_ENV set to production, a debug call
on a state that would otherwise emit changes nothing. -/
theorem debug_release_noop_witness :
    debug (some "production") "2024-01-01T00:00:00.000Z" smNoFile stTagged
        ComponentName.ui "msg" (some ["a"]) [] =
      ⟨stTagged, smNoFile.fileContent, [], []⟩ :=
  debug_release_noop (some "production") "2024-01-01T00:00:00.000Z" smNoFile
    stTagged ComponentName.ui "msg" (some ["a"]) [] (by decide)

/-- Witness for claim C4: a flush whose write Promise rejects leaves the
state and file untouched and reports the failure on the console. -/
theorem flushBuffer_error_handling_witness :
    (flushBuffer "t" smWriteFail stBuffered).state = stBuffered ∧
    (flushBuffer "t" smWriteFail stBuffered).file = smWriteFail.fileContent ∧
    (flushBuffer "t" smWriteFail stBuffered).console ≠ [] := by
  have h := flushBuffer_error_handling "t" smWriteFail stBuffered
    rfl rfl (by decide) (by decide)
  exact h.2 (by decide)

/-- Witness for claim C5: an oversized destination file is overwritten
with the rotation banner and the pending content, and a small one gets
the pending content appended to its existing content. -/
theorem flushBuffer_rotation_threshold_witness :
    (flushBuffer "t" smBigFile stBuffered).file =
      some (clearHeader "t" ++ String.join stBuffered.logBuffer) ∧
    (flushBuffer "t" smSmallFile stBuffered).file =
      some ("old" ++ String.join stBuffered.logBuffer) := by
  constructor
  · exact (flushBuffer_rotation_threshold "t" smBigFile stBuffered "old" 1048577
      rfl rfl (by decide) rfl rfl rfl rfl rfl).1 (by decide)
  · exact (flushBuffer_rotation_threshold "t" smSmallFile stBuffered "old" 10
      rfl rfl (by decide) rfl rfl rfl rfl rfl).2 (by decide)

/-- Witness for claim C6: with the default warn configuration, the api
component accepting warn implies it accepts error. -/
theorem shouldLog_level_monotone_witness :
    shouldLog initialLogger ComponentName.api LogLevel.error none = true :=
  shouldLog_level_monotone initialLogger ComponentName.api LogLevel.warn
    LogLevel.error none none (by decide) (by decide)

/-- Witness for claim C7: a manual flush on the freshly constructed
logger (empty pending buffer) is a complete no-op. -/
theorem flush_empty_noop_idempotent_witness :
    flush "t" smNoFile initialLogger = ⟨initialLogger, smNoFile.fileContent, [], []⟩ :=
  flush_empty_noop_idempotent.1 "t" smNoFile initialLogger rfl

/-- Witness for claim C8: an info record passes on the ui component even
though a tag filter is installed and its tags match nothing in it. -/
theorem shouldLog_nontrace_ignores_tags_witness :
    shouldLog stTagged ComponentName.ui LogLevel.info (some ["zzz"]) = true := by
  have h := shouldLog_nontrace_ignores_tags stTagged ComponentName.ui
    LogLevel.info (some ["zzz"]) (Or.inl rfl)
  exact h.mpr ⟨by decide, by decide⟩

/-- Witness for claim C9: setComponentLevel with a duplicated tag list
sets the level and installs exactly that set of tags. -/
theorem setComponentLevel_spec_witness :
    (setComponentLevel initialLogger ComponentName.ui LogLevel.debug
        (some ["a", "b", "a"])).config ComponentName.ui = LogLevel.debug ∧
    getTagFilters (setComponentLevel initialLogger ComponentName.ui
        LogLevel.debug (some ["a", "b", "a"])) ComponentName.ui =
      some ["a", "b"] := by
  have h := setComponentLevel_spec initialLogger ComponentName.ui
    LogLevel.debug (some ["a", "b", "a"])
  refine ⟨h.1, ?_⟩
  have h2 := (h.2.1 ["a", "b", "a"] rfl (by decide)).1
  rw [h2]
  decide

/-- Witness for claim C10: a trailing all-string array argument is popped
and passed as the tags of the record. -/
theorem componentLoggerDebug_tag_sniffing_witness :
    componentLoggerDebug none "t" smNoFile stTagged ComponentName.ui "m"
        [JsValue.num 1, JsValue.arr [JsValue.str "a"]] =
      debug none "t" smNoFile stTagged ComponentName.ui "m"
        (some ["a"]) [JsValue.num 1] := by
  have h := (componentLoggerDebug_tag_sniffing none "t" smNoFile stTagged
      ComponentName.ui "m" [JsValue.num 1, JsValue.arr [JsValue.str "a"]]).1
    [JsValue.str "a"] rfl (by
      intro v hv
      rw [List.mem_singleton] at hv
      exact ⟨"a", hv⟩)
  exact h

end ObsidianLogger
